import Mathlib

/-!
Shallow embedding of the Task Manager core of this repository:
- `src/project/Course 1/task_manager/task.py` (class `TaskManager`)
- `src/project/task_manager/user.py` (class `UserAuth`)

File IO is modelled by an explicit storage value: `TaskFile` / `UsersFile`
is either readable content or an unreadable state (missing file /
`JSONDecodeError`), matching the `try/except` in `_load_tasks` and
`_load_users`.  `datetime.now()` is modelled by an explicit `now : String`
argument.  `hashlib.sha256(...).hexdigest()` is modelled by an explicit
`hash : String -> String` argument (its one-wayness is outside the model);
`modelHash` below is a concrete stand-in used for concrete evaluations.
Python string helpers (`strip`, `lower`, `in`, `isalnum`, `replace`) are
embedded as structurally recursive functions over the character list, in
the ASCII range the source data uses.
-/

namespace TaskApp

/-- Python `str.strip()` on the character list: drop whitespace at both ends. -/
def stripChars (l : List Char) : List Char :=
  ((l.dropWhile Char.isWhitespace).reverse.dropWhile Char.isWhitespace).reverse

/-- Python `str.strip()`. -/
def pyStrip (s : String) : String :=
  String.mk (stripChars s.toList)

/-- Python `str.lower()` (ASCII case folding, as `str.lower` acts on the source data). -/
def pyLower (s : String) : String :=
  String.mk (s.toList.map Char.toLower)

/-- Python `str.isalnum()`: non-empty and every character a letter or digit. -/
def pyIsalnum (s : String) : Bool :=
  !s.toList.isEmpty && s.toList.all Char.isAlphanum

/-- Python `username.replace("_", "")`: remove every underscore. -/
def removeUnderscores (s : String) : String :=
  String.mk (s.toList.filter fun c => c != '_')

/-- Whether `needle` is a prefix of `hay` (character lists). -/
def listPrefixEq : List Char → List Char → Bool
  | [], _ => true
  | _ :: _, [] => false
  | a :: as, b :: bs => a == b && listPrefixEq as bs

/-- Whether `needle` occurs as a contiguous sublist of `hay`. -/
def listContainsSub (needle : List Char) : List Char → Bool
  | [] => listPrefixEq needle []
  | c :: rest => listPrefixEq needle (c :: rest) || listContainsSub needle rest

/-- Python `needle in hay` on strings: substring containment. -/
def pyIn (needle hay : String) : Bool :=
  listContainsSub needle.toList hay.toList

/-- One task record, the fields written by `TaskManager.add_task`. -/
structure Task where
  id : Nat
  title : String
  description : String
  priority : String
  due_date : String
  status : String
  created_at : String
  completed_at : Option String
deriving Repr, DecidableEq

/-- The persisted per-user task file: readable JSON content, or a state on
which reading raises (`FileNotFoundError` / `JSONDecodeError`). -/
inductive TaskFile where
  | content (tasks : List Task)
  | unreadable
deriving Repr, DecidableEq

/-- `TaskManager._load_tasks`: the `try/except` returns `[]` on a read fault. -/
def load_tasks : TaskFile → List Task
  | .content ts => ts
  | .unreadable => []

/-- `TaskManager._get_next_id`: 1 on an empty list, else `max(ids) + 1`. -/
def get_next_id (tasks : List Task) : Nat :=
  if tasks.isEmpty then 1
  else (tasks.foldl (fun acc t => Nat.max acc t.id) 0) + 1

/-- `TaskManager.add_task`.  `now` stands for `self._get_timestamp()`; the
result pairs the returned `(success, message, task_id)` tuple with the file
state after the call (unchanged when nothing is saved). -/
def add_task (now : String) (st : TaskFile)
    (title description priority due_date : String) :
    (Bool × String × Option Nat) × TaskFile :=
  if title == "" || pyStrip title == "" then
    ((false, "Task title cannot be empty", none), st)
  else
    let priority :=
      if priority == "Low" || priority == "Medium" || priority == "High" then
        priority
      else "Medium"
    let tasks := load_tasks st
    let task_id := get_next_id tasks
    let new_task : Task :=
      { id := task_id
        title := pyStrip title
        description := pyStrip description
        priority := priority
        due_date := pyStrip due_date
        status := "Pending"
        created_at := now
        completed_at := none }
    ((true, "Task \x27" ++ title ++ "\x27 added successfully!", some task_id),
      .content (tasks ++ [new_task]))

/-- `TaskManager.view_all_tasks`. -/
def view_all_tasks (st : TaskFile) : List Task :=
  load_tasks st

/-- `TaskManager.view_task_by_id`. -/
def view_task_by_id (st : TaskFile) (task_id : Nat) : Option Task :=
  (load_tasks st).find? fun t => t.id == task_id

/-- `TaskManager.view_tasks_by_status`. -/
def view_tasks_by_status (st : TaskFile) (status : String) : List Task :=
  (load_tasks st).filter fun t => t.status == status

/-- `TaskManager.view_tasks_by_priority`. -/
def view_tasks_by_priority (st : TaskFile) (priority : String) : List Task :=
  (load_tasks st).filter fun t => t.priority == priority

/-- Keyword arguments of `TaskManager.update_task` (`**kwargs`): a Python
dict of string keys to string values, embedded as an association list. -/
def kwLookup (kwargs : List (String × String)) (k : String) : Option String :=
  (kwargs.find? fun p => p.fst == k).map Prod.snd

/-- The body of the update loop of `TaskManager.update_task` on the matched
task: apply each recognized field under its condition. -/
def applyUpdate (kwargs : List (String × String)) (t : Task) : Task :=
  let t :=
    match kwLookup kwargs "title" with
    | some v => if pyStrip v != "" then { t with title := pyStrip v } else t
    | none => t
  let t :=
    match kwLookup kwargs "description" with
    | some v => { t with description := pyStrip v }
    | none => t
  let t :=
    match kwLookup kwargs "priority" with
    | some v =>
        if v == "Low" || v == "Medium" || v == "High" then
          { t with priority := v }
        else t
    | none => t
  let t :=
    match kwLookup kwargs "due_date" with
    | some v => { t with due_date := pyStrip v }
    | none => t
  t

/-- The `for`/`break` loop of `TaskManager.update_task`: update the first
task bearing the id, `none` when no task matches. -/
def updateGo (kwargs : List (String × String)) (task_id : Nat) :
    List Task → Option (List Task)
  | [] => none
  | t :: ts =>
    if t.id == task_id then some (applyUpdate kwargs t :: ts)
    else (updateGo kwargs task_id ts).map fun l => t :: l

/-- `TaskManager.update_task`. -/
def update_task (st : TaskFile) (task_id : Nat)
    (kwargs : List (String × String)) : (Bool × String) × TaskFile :=
  let tasks := load_tasks st
  match updateGo kwargs task_id tasks with
  | none =>
      ((false, "Task with ID " ++ toString task_id ++ " not found"), st)
  | some tasks2 =>
      ((true, "Task " ++ toString task_id ++ " updated successfully!"),
        .content tasks2)

/-- Outcome of the matching loops of `mark_complete` / `mark_pending`. -/
inductive MarkOutcome where
  | notFound
  | alreadyInState
  | updated (tasks : List Task)
deriving Repr, DecidableEq

/-- The `for`/`break` loop of `TaskManager.mark_complete`: the early
`return` on an already-Completed first match skips the save. -/
def markCompleteGo (now : String) (task_id : Nat) : List Task → MarkOutcome
  | [] => .notFound
  | t :: ts =>
    if t.id == task_id then
      if t.status == "Completed" then .alreadyInState
      else .updated ({ t with status := "Completed", completed_at := some now } :: ts)
    else
      match markCompleteGo now task_id ts with
      | .notFound => .notFound
      | .alreadyInState => .alreadyInState
      | .updated ts2 => .updated (t :: ts2)

/-- `TaskManager.mark_complete`. -/
def mark_complete (now : String) (st : TaskFile) (task_id : Nat) :
    (Bool × String) × TaskFile :=
  match markCompleteGo now task_id (load_tasks st) with
  | .notFound =>
      ((false, "Task with ID " ++ toString task_id ++ " not found"), st)
  | .alreadyInState =>
      ((false, "Task " ++ toString task_id ++ " is already completed"), st)
  | .updated ts =>
      ((true, "Task " ++ toString task_id ++ " marked as completed!"),
        .content ts)

/-- The `for`/`break` loop of `TaskManager.mark_pending`. -/
def markPendingGo (task_id : Nat) : List Task → MarkOutcome
  | [] => .notFound
  | t :: ts =>
    if t.id == task_id then
      if t.status == "Pending" then .alreadyInState
      else .updated ({ t with status := "Pending", completed_at := none } :: ts)
    else
      match markPendingGo task_id ts with
      | .notFound => .notFound
      | .alreadyInState => .alreadyInState
      | .updated ts2 => .updated (t :: ts2)

/-- `TaskManager.mark_pending`. -/
def mark_pending (st : TaskFile) (task_id : Nat) :
    (Bool × String) × TaskFile :=
  match markPendingGo task_id (load_tasks st) with
  | .notFound =>
      ((false, "Task with ID " ++ toString task_id ++ " not found"), st)
  | .alreadyInState =>
      ((false, "Task " ++ toString task_id ++ " is already pending"), st)
  | .updated ts =>
      ((true, "Task " ++ toString task_id ++ " marked as pending!"),
        .content ts)

/-- `TaskManager.delete_task`. -/
def delete_task (st : TaskFile) (task_id : Nat) :
    (Bool × String) × TaskFile :=
  let tasks := load_tasks st
  let initial_count := tasks.length
  let tasks2 := tasks.filter fun t => t.id != task_id
  if tasks2.length == initial_count then
    ((false, "Task with ID " ++ toString task_id ++ " not found"), st)
  else
    ((true, "Task " ++ toString task_id ++ " deleted successfully!"),
      .content tasks2)

/-- `TaskManager.get_task_count`. -/
def get_task_count (st : TaskFile) : Nat × Nat × Nat :=
  let tasks := load_tasks st
  (tasks.length,
    (tasks.filter fun t => t.status == "Pending").length,
    (tasks.filter fun t => t.status == "Completed").length)

/-- The accumulation loop of `TaskManager.search_tasks` (keyword already
lowercased, as in the source). -/
def searchGo (keyword_lower : String) : List Task → List Task
  | [] => []
  | t :: ts =>
    if pyIn keyword_lower (pyLower t.title)
        || pyIn keyword_lower (pyLower t.description) then
      t :: searchGo keyword_lower ts
    else
      searchGo keyword_lower ts

/-- `TaskManager.search_tasks`. -/
def search_tasks (st : TaskFile) (keyword : String) : List Task :=
  searchGo (pyLower keyword) (load_tasks st)

/-- One credential record, the fields written by `UserAuth.register`; the
`password` field holds the stored digest, as in the JSON layout. -/
structure UserRecord where
  password : String
  created_at : String
deriving Repr, DecidableEq

/-- The persisted users file: readable JSON content (a dict in insertion
order, embedded as an association list with distinct keys), or a state on
which reading raises. -/
inductive UsersFile where
  | content (users : List (String × UserRecord))
  | unreadable
deriving Repr, DecidableEq

/-- `UserAuth._load_users`: the `try/except` returns `{}` on a read fault. -/
def load_users : UsersFile → List (String × UserRecord)
  | .content us => us
  | .unreadable => []

/-- Dict lookup `users[username]` / membership used by `UserAuth`. -/
def usersLookup (users : List (String × UserRecord)) (username : String) :
    Option UserRecord :=
  (users.find? fun p => p.fst == username).map Prod.snd

/-- Python `username in users` on the users dict. -/
def usersHas (users : List (String × UserRecord)) (username : String) : Bool :=
  users.any fun p => p.fst == username

/-- `UserAuth.register`.  `hash` stands for `self._hash_password` and `now`
for `self._get_timestamp()`; a new key is appended at the end, as dict
insertion does. -/
def register (hash : String → String) (now : String) (st : UsersFile)
    (username password : String) : (Bool × String) × UsersFile :=
  if username == "" || password == "" then
    ((false, "Username and password cannot be empty"), st)
  else if username.length < 3 then
    ((false, "Username must be at least 3 characters long"), st)
  else if password.length < 6 then
    ((false, "Password must be at least 6 characters long"), st)
  else if !pyIsalnum (removeUnderscores username) then
    ((false, "Username can only contain letters, numbers, and underscores"), st)
  else
    let users := load_users st
    if usersHas users username then
      ((false, "Username already exists"), st)
    else
      ((true, "Registration successful!"),
        .content (users ++
          [(username, { password := hash password, created_at := now })]))

/-- `UserAuth.login`. -/
def login (hash : String → String) (st : UsersFile)
    (username password : String) : Bool × String :=
  if username == "" || password == "" then
    (false, "Username and password cannot be empty")
  else
    match usersLookup (load_users st) username with
    | none => (false, "Invalid username or password")
    | some r =>
        if r.password == hash password then (true, "Login successful!")
        else (false, "Invalid username or password")

/-- `UserAuth.user_exists`. -/
def user_exists (st : UsersFile) (username : String) : Bool :=
  usersHas (load_users st) username

/-- `UserAuth.get_all_usernames`. -/
def get_all_usernames (st : UsersFile) : List String :=
  (load_users st).map Prod.fst

/-- Concrete stand-in for `UserAuth._hash_password` (SHA-256 hex digest),
used to evaluate the embedding on concrete inputs: deterministic and
injective like the digest on the inputs at hand; one-wayness is outside
the model. -/
def modelHash (s : String) : String :=
  "digest." ++ s

/-- The predicate of `TaskManager.search_tasks`, as the spec words it: the
lowercased keyword occurs in the lowercased title or description. -/
def matchesKeyword (keyword : String) (t : Task) : Bool :=
  pyIn (pyLower keyword) (pyLower t.title)
    || pyIn (pyLower keyword) (pyLower t.description)

/-- The four messages `UserAuth.register` returns on input validation. -/
def validationMessages : List String :=
  ["Username and password cannot be empty",
   "Username must be at least 3 characters long",
   "Password must be at least 6 characters long",
   "Username can only contain letters, numbers, and underscores"]

/-- A sample pending task used in concrete evaluations. -/
def c2Task : Task :=
  { id := 1
    title := "Report Draft"
    description := "write it"
    priority := "Low"
    due_date := ""
    status := "Pending"
    created_at := "2025-01-01 00:00:00"
    completed_at := none }

/-- A one-task store holding `c2Task`. -/
def c2St : TaskFile := .content [c2Task]

/-- A sample completed task. -/
def c7Task : Task :=
  { id := 1
    title := "Ship release"
    description := ""
    priority := "High"
    due_date := "2025-02-01"
    status := "Completed"
    created_at := "2025-01-01 00:00:00"
    completed_at := some "2025-01-02 00:00:00" }

/-- A one-task store holding `c7Task`. -/
def c7St : TaskFile := .content [c7Task]

/-- Sample tasks of the search example in the spec. -/
def reportTask : Task :=
  { id := 1
    title := "Report Draft"
    description := "quarterly numbers"
    priority := "Medium"
    due_date := ""
    status := "Pending"
    created_at := "2025"
    completed_at := none }

def emailTask : Task :=
  { id := 2
    title := "Email Team"
    description := "weekly sync agenda"
    priority := "Medium"
    due_date := ""
    status := "Pending"
    created_at := "2025"
    completed_at := none }

/-- The id-reuse scenario: one add on the empty store. -/
def c1Add1 : (Bool × String × Option Nat) × TaskFile :=
  add_task "t1" (.content []) "task one" "" "Medium" ""

/-- ... the task of id 1 deleted again ... -/
def c1Deleted : (Bool × String) × TaskFile :=
  delete_task c1Add1.snd 1

/-- ... and a second add after the delete. -/
def c1Add2 : (Bool × String × Option Nat) × TaskFile :=
  add_task "t2" c1Deleted.snd "task two" "" "Medium" ""

/-- The users file after registering alice. -/
def c3St : UsersFile :=
  (register modelHash "2025-01-01" (UsersFile.content []) "alice" "secret1").snd

theorem foldl_max_init_le (l : List Task) (a : Nat) :
    a ≤ l.foldl (fun acc t => Nat.max acc t.id) a := by
  induction l generalizing a with
  | nil => simp
  | cons t ts ih =>
    simp only [List.foldl_cons]
    exact le_trans (Nat.le_max_left a t.id) (ih _)

theorem mem_le_foldl_max (t : Task) :
    ∀ (l : List Task) (a : Nat), t ∈ l →
      t.id ≤ l.foldl (fun acc x => Nat.max acc x.id) a := by
  intro l
  induction l with
  | nil => intro a h; cases h
  | cons s ts ih =>
    intro a h
    simp only [List.foldl_cons]
    rcases List.mem_cons.mp h with h | h
    · subst h
      exact le_trans (Nat.le_max_right a t.id) (foldl_max_init_le ts _)
    · exact ih _ h

/-- Every id present is below the id `_get_next_id` hands out. -/
theorem id_lt_get_next_id (tasks : List Task) (t : Task) (ht : t ∈ tasks) :
    t.id < get_next_id tasks := by
  unfold get_next_id
  have hne : tasks.isEmpty = false := by
    cases tasks with
    | nil => cases ht
    | cons => rfl
  rw [hne]
  simp only [Bool.false_eq_true, if_false]
  exact Nat.lt_succ_of_le (mem_le_foldl_max t tasks 0 ht)

/-- A task appended at the end has an id below the next handed-out id. -/
theorem get_next_id_append_gt (l : List Task) (tk : Task) :
    tk.id < get_next_id (l ++ [tk]) :=
  id_lt_get_next_id _ _ (List.mem_append_right _ (List.mem_singleton.mpr rfl))

/-- The success branch of `add_task`, written out. -/
theorem add_task_success (now : String) (st : TaskFile)
    (title description priority due_date : String)
    (h : ¬(title == "" || pyStrip title == "") = true) :
    add_task now st title description priority due_date =
      ((true, "Task \x27" ++ title ++ "\x27 added successfully!",
        some (get_next_id (load_tasks st))),
       .content (load_tasks st ++
         [{ id := get_next_id (load_tasks st)
            title := pyStrip title
            description := pyStrip description
            priority :=
              if priority == "Low" || priority == "Medium" || priority == "High"
              then priority else "Medium"
            due_date := pyStrip due_date
            status := "Pending"
            created_at := now
            completed_at := none }])) := by
  unfold add_task
  rw [if_neg h]

/-- The title check of `add_task` holds exactly on whitespace-only titles. -/
theorem add_cond_iff (title : String) :
    (title == "" || pyStrip title == "") = true ↔ pyStrip title = "" := by
  constructor
  · intro h
    simp only [Bool.or_eq_true, beq_iff_eq] at h
    rcases h with h | h
    · rw [h]; rfl
    · exact h
  · intro h
    simp only [Bool.or_eq_true, beq_iff_eq]
    exact Or.inr h

/-- `updateGo` on the first task bearing the id. -/
theorem updateGo_first (kwargs : List (String × String)) (task_id : Nat)
    (pre post : List Task) (t : Task)
    (hpre : (pre.all fun x => x.id != task_id) = true) (ht : t.id = task_id) :
    updateGo kwargs task_id (pre ++ t :: post)
      = some (pre ++ applyUpdate kwargs t :: post) := by
  induction pre with
  | nil => simp [updateGo, ht]
  | cons s ps ih =>
    simp only [List.all_cons, Bool.and_eq_true] at hpre
    have hs : (s.id == task_id) = false := by
      simpa using hpre.1
    simp [updateGo, hs, ih hpre.2]

/-- When a task bears the id, `updateGo` finds one to update. -/
theorem updateGo_isSome (kwargs : List (String × String)) (task_id : Nat)
    (l : List Task) (hex : (l.any fun t => t.id == task_id) = true) :
    ∃ l2, updateGo kwargs task_id l = some l2 := by
  induction l with
  | nil => simp at hex
  | cons s ls ih =>
    by_cases hs : (s.id == task_id) = true
    · exact ⟨applyUpdate kwargs s :: ls, by simp [updateGo, hs]⟩
    · have hex2 : (ls.any fun t => t.id == task_id) = true := by
        simp only [List.any_cons, Bool.or_eq_true] at hex
        rcases hex with h | h
        · exact absurd h hs
        · exact h
      obtain ⟨l2, hl2⟩ := ih hex2
      refine ⟨s :: l2, ?_⟩
      simp only [Bool.not_eq_true] at hs
      simp [updateGo, hs, hl2]

/-- With none of the four recognized keys supplied, the update body is the
identity. -/
theorem applyUpdate_no_keys (kwargs : List (String × String)) (t : Task)
    (h1 : kwLookup kwargs "title" = none)
    (h2 : kwLookup kwargs "description" = none)
    (h3 : kwLookup kwargs "priority" = none)
    (h4 : kwLookup kwargs "due_date" = none) :
    applyUpdate kwargs t = t := by
  unfold applyUpdate
  rw [h1, h2, h3, h4]

/-- `markCompleteGo` on a first match that is already Completed. -/
theorem markCompleteGo_first_completed (now : String) (task_id : Nat)
    (pre post : List Task) (t : Task)
    (hpre : (pre.all fun x => x.id != task_id) = true) (ht : t.id = task_id)
    (hstatus : t.status = "Completed") :
    markCompleteGo now task_id (pre ++ t :: post) = .alreadyInState := by
  induction pre with
  | nil => simp [markCompleteGo, ht, hstatus]
  | cons s ps ih =>
    simp only [List.all_cons, Bool.and_eq_true] at hpre
    have hs : (s.id == task_id) = false := by
      simpa using hpre.1
    simp [markCompleteGo, hs, ih hpre.2]

/-- `markCompleteGo` on a first match that is not Completed. -/
theorem markCompleteGo_first_active (now : String) (task_id : Nat)
    (pre post : List Task) (t : Task)
    (hpre : (pre.all fun x => x.id != task_id) = true) (ht : t.id = task_id)
    (hstatus : t.status ≠ "Completed") :
    markCompleteGo now task_id (pre ++ t :: post)
      = .updated
          (pre ++ { t with status := "Completed", completed_at := some now } :: post) := by
  induction pre with
  | nil => simp [markCompleteGo, ht, hstatus]
  | cons s ps ih =>
    simp only [List.all_cons, Bool.and_eq_true] at hpre
    have hs : (s.id == task_id) = false := by
      simpa using hpre.1
    simp [markCompleteGo, hs, ih hpre.2]

/-- `markPendingGo` on a first match that is not Pending. -/
theorem markPendingGo_first_completed (task_id : Nat)
    (pre post : List Task) (t : Task)
    (hpre : (pre.all fun x => x.id != task_id) = true) (ht : t.id = task_id)
    (hstatus : t.status ≠ "Pending") :
    markPendingGo task_id (pre ++ t :: post)
      = .updated
          (pre ++ { t with status := "Pending", completed_at := none } :: post) := by
  induction pre with
  | nil => simp [markPendingGo, ht, hstatus]
  | cons s ps ih =>
    simp only [List.all_cons, Bool.and_eq_true] at hpre
    have hs : (s.id == task_id) = false := by
      simpa using hpre.1
    simp [markPendingGo, hs, ih hpre.2]

/-- The search loop is the filter by `matchesKeyword`. -/
theorem searchGo_eq_filter (kl : String) (l : List Task) :
    searchGo kl l
      = l.filter fun t =>
          pyIn kl (pyLower t.title) || pyIn kl (pyLower t.description) := by
  induction l with
  | nil => rfl
  | cons t ts ih =>
    by_cases h : (pyIn kl (pyLower t.title) || pyIn kl (pyLower t.description)) = true
    · simp [searchGo, List.filter_cons, h, ih]
    · simp only [Bool.not_eq_true] at h
      simp [searchGo, List.filter_cons, h, ih]


/-- C1 counterexample: on one user's store, add returns id 1; deleting that
task succeeds; the next add returns id 1 again — the id is reused, not 2 as
the claim states. -/
theorem add_id_reuse_after_delete_cex :
    c1Add1.fst.2.2 = some 1
    ∧ c1Deleted.fst.fst = true
    ∧ c1Add2.fst.2.2 = some 1 := by
  decide

/-- C1 (amended): ids of successive successful adds with no intervening
delete are strictly increasing, and a returned id exceeds every id present
in the collection at the time of the call; ids can however be reused once
the task holding the maximal id is deleted. -/
theorem add_task_ids_strictly_increasing
    (now now2 : String) (st : TaskFile)
    (t1 d1 p1 dd1 t2 d2 p2 dd2 : String) (id1 id2 : Nat)
    (h1 : (add_task now st t1 d1 p1 dd1).fst.2.2 = some id1)
    (h2 : (add_task now2 (add_task now st t1 d1 p1 dd1).snd t2 d2 p2 dd2).fst.2.2
            = some id2) :
    id1 < id2
    ∧ ((load_tasks st).all fun t => decide (t.id < id1)) = true := by
  by_cases hc1 : (t1 == "" || pyStrip t1 == "") = true
  · rw [add_task, if_pos hc1] at h1
    simp at h1
  · rw [add_task_success now st t1 d1 p1 dd1 hc1] at h1 h2
    simp only at h1
    injection h1 with h1
    by_cases hc2 : (t2 == "" || pyStrip t2 == "") = true
    · rw [add_task, if_pos hc2] at h2
      simp at h2
    · rw [add_task_success _ _ t2 d2 p2 dd2 hc2] at h2
      simp only [load_tasks] at h2
      injection h2 with h2
      constructor
      · rw [← h1, ← h2]
        exact get_next_id_append_gt (load_tasks st)
          { id := get_next_id (load_tasks st)
            title := pyStrip t1
            description := pyStrip d1
            priority :=
              if p1 == "Low" || p1 == "Medium" || p1 == "High" then p1
              else "Medium"
            due_date := pyStrip dd1
            status := "Pending"
            created_at := now
            completed_at := none }
      · rw [List.all_eq_true]
        intro t htmem
        rw [decide_eq_true_eq, ← h1]
        exact id_lt_get_next_id _ _ htmem

/-- C1 witness: the amended theorem at a concrete pair of adds. -/
theorem add_task_ids_strictly_increasing_witness :
    1 < 2
    ∧ ((load_tasks (TaskFile.content [])).all fun t => decide (t.id < 1)) = true :=
  add_task_ids_strictly_increasing "a" "b" (TaskFile.content [])
    "x" "" "" "" "y" "" "" "" 1 2 (by decide) (by decide)

/-- With no recognized key supplied, the update loop hands back the list
it was given whenever some task bears the id. -/
theorem updateGo_no_keys (kwargs : List (String × String)) (task_id : Nat)
    (l : List Task)
    (happ : ∀ t : Task, applyUpdate kwargs t = t)
    (hex : (l.any fun t => t.id == task_id) = true) :
    updateGo kwargs task_id l = some l := by
  induction l with
  | nil => simp at hex
  | cons s ls ih =>
    by_cases hs : (s.id == task_id) = true
    · simp [updateGo, hs, happ s]
    · have hex2 : (ls.any fun t => t.id == task_id) = true := by
        simp only [List.any_cons, Bool.or_eq_true] at hex
        rcases hex with h | h
        · exact absurd h hs
        · exact h
      simp only [Bool.not_eq_true] at hs
      simp [updateGo, hs, ih hex2]

/-- C2 counterexample: on a store holding task 1, an update supplying no
recognized field returns the very same result as an update that does change
a field — there is no distinguishable "no changes" outcome. -/
theorem update_no_fields_same_result_cex :
    (view_task_by_id c2St 1).isSome = true
    ∧ (update_task c2St 1 []).fst = (true, "Task 1 updated successfully!")
    ∧ (update_task c2St 1 [("description", "new text")]).fst
        = (true, "Task 1 updated successfully!")
    ∧ (update_task c2St 1 []).fst
        = (update_task c2St 1 [("description", "new text")]).fst
    ∧ (update_task c2St 1 [("description", "new text")]).snd ≠ c2St := by
  decide

/-- C2 (amended): updating an existing task with none of the four
recognized fields supplied reports the same successful result as any other
update call on that id — `(true, "Task {id} updated successfully!")`, with
no distinguishable "no changes" outcome — and leaves the stored collection
unchanged. -/
theorem update_no_fields_success_unchanged
    (st : TaskFile) (task_id : Nat) (kwargs kwargs2 : List (String × String))
    (h1 : kwLookup kwargs "title" = none)
    (h2 : kwLookup kwargs "description" = none)
    (h3 : kwLookup kwargs "priority" = none)
    (h4 : kwLookup kwargs "due_date" = none)
    (hex : ((load_tasks st).any fun t => t.id == task_id) = true) :
    (update_task st task_id kwargs).fst
        = (true, "Task " ++ toString task_id ++ " updated successfully!")
    ∧ load_tasks (update_task st task_id kwargs).snd = load_tasks st
    ∧ (update_task st task_id kwargs).fst = (update_task st task_id kwargs2).fst := by
  have happ : ∀ t : Task, applyUpdate kwargs t = t := fun t =>
    applyUpdate_no_keys kwargs t h1 h2 h3 h4
  have hgo := updateGo_no_keys kwargs task_id (load_tasks st) happ hex
  obtain ⟨l2, hgo2⟩ := updateGo_isSome kwargs2 task_id (load_tasks st) hex
  refine ⟨?_, ?_, ?_⟩
  · simp only [update_task]
    rw [hgo]
  · simp only [update_task]
    rw [hgo]
    rfl
  · simp only [update_task]
    rw [hgo, hgo2]

/-- C2 witness: the amended theorem at the one-task store. -/
theorem update_no_fields_success_unchanged_witness :
    (update_task c2St 1 []).fst
        = (true, "Task " ++ toString 1 ++ " updated successfully!")
    ∧ load_tasks (update_task c2St 1 []).snd = load_tasks c2St
    ∧ (update_task c2St 1 []).fst = (update_task c2St 1 [("title", "X")]).fst :=
  update_no_fields_success_unchanged c2St 1 [] [("title", "X")]
    rfl rfl rfl rfl (by decide)

/-- Success of `register` pins down the inputs and the new state. -/
theorem register_success_state (hash : String → String) (now : String)
    (st : UsersFile) (username password : String)
    (h : (register hash now st username password).fst.fst = true) :
    username ≠ "" ∧ password ≠ ""
    ∧ usersHas (load_users st) username = false
    ∧ register hash now st username password
        = ((true, "Registration successful!"),
            .content (load_users st ++
              [(username, { password := hash password, created_at := now })])) := by
  simp only [register] at h ⊢
  by_cases c1 : (username == "" || password == "") = true
  · rw [if_pos c1] at h; simp at h
  · rw [if_neg c1] at h ⊢
    by_cases c2 : username.length < 3
    · rw [if_pos c2] at h; simp at h
    · rw [if_neg c2] at h ⊢
      by_cases c3 : password.length < 6
      · rw [if_pos c3] at h; simp at h
      · rw [if_neg c3] at h ⊢
        by_cases c4 : (!pyIsalnum (removeUnderscores username)) = true
        · rw [if_pos c4] at h; simp at h
        · rw [if_neg c4] at h ⊢
          by_cases c5 : usersHas (load_users st) username = true
          · rw [if_pos c5] at h; simp at h
          · rw [if_neg c5] at h ⊢
            simp only [Bool.or_eq_true, beq_iff_eq, not_or] at c1
            refine ⟨c1.1, c1.2, ?_, rfl⟩
            cases hb : usersHas (load_users st) username with
            | false => rfl
            | true => exact absurd hb c5

theorem load_users_content (us : List (String × UserRecord)) :
    load_users (UsersFile.content us) = us := rfl

theorem load_tasks_content (ts : List Task) :
    load_tasks (TaskFile.content ts) = ts := rfl

/-- A fresh key appended at the end of the users dict is found by lookup. -/
theorem usersLookup_append_self (users : List (String × UserRecord))
    (username : String) (r : UserRecord)
    (h : usersHas users username = false) :
    usersLookup (users ++ [(username, r)]) username = some r := by
  induction users with
  | nil => simp [usersLookup]
  | cons p ps ih =>
    have h2 : (p.fst == username) = false ∧ usersHas ps username = false := by
      simpa [usersHas] using h
    simp only [List.cons_append, usersLookup, List.find?]
    rw [h2.1]
    exact ih h2.2

/-- C3 counterexample: with alice registered under password "secret1",
the failing login ("alice", "") — username present, supplied digest
different from the stored digest — carries a different message than the
failing login of an absent username, so the two failure results are not
identical as the claim states. -/
theorem login_empty_password_message_cex :
    user_exists c3St "alice" = true
    ∧ usersLookup (load_users c3St) "alice"
        = some { password := modelHash "secret1", created_at := "2025-01-01" }
    ∧ modelHash "" ≠ modelHash "secret1"
    ∧ login modelHash c3St "alice" ""
        = (false, "Username and password cannot be empty")
    ∧ login modelHash c3St "bob" "wrongpw"
        = (false, "Invalid username or password")
    ∧ (login modelHash c3St "alice" "").snd
        ≠ (login modelHash c3St "bob" "wrongpw").snd := by
  decide

/-- C3 (amended): when either supplied credential is empty, login fails
with the distinct message "Username and password cannot be empty";
otherwise login succeeds exactly when the username is present with a
stored digest equal to the digest of the supplied password, every failure
carries the one message "Invalid username or password" (identical for
absent username and wrong password), and login right after a successful
register with the same credentials succeeds. -/
theorem login_failure_characterization
    (hash : String → String) (st st0 : UsersFile) (now username password : String) :
    ((username = "" ∨ password = "") →
      login hash st username password
        = (false, "Username and password cannot be empty"))
    ∧ (username ≠ "" → password ≠ "" →
        (((login hash st username password).fst = true) ↔
          ∃ r, usersLookup (load_users st) username = some r
            ∧ r.password = hash password))
    ∧ (username ≠ "" → password ≠ "" →
        (login hash st username password).fst = false →
        (login hash st username password).snd = "Invalid username or password")
    ∧ ((register hash now st0 username password).fst.fst = true →
        login hash (register hash now st0 username password).snd username password
          = (true, "Login successful!")) := by
  refine ⟨?_, ?_, ?_, ?_⟩
  · intro h
    rcases h with h | h <;> simp [login, h]
  · intro hu hp
    have hc : ¬(username == "" || password == "") = true := by simp [hu, hp]
    simp only [login]
    rw [if_neg hc]
    cases hr : usersLookup (load_users st) username with
    | none => simp
    | some r =>
      by_cases hpw : r.password = hash password
      · simp [hpw]
      · simp [hpw]
  · intro hu hp hf
    have hc : ¬(username == "" || password == "") = true := by simp [hu, hp]
    simp only [login] at hf ⊢
    rw [if_neg hc] at hf ⊢
    cases hr : usersLookup (load_users st) username with
    | none => simp
    | some r =>
      rw [hr] at hf
      by_cases hpw : r.password = hash password
      · simp [hpw] at hf
      · simp [hpw]
  · intro hreg
    obtain ⟨hu, hp, hhas, heq⟩ :=
      register_success_state hash now st0 username password hreg
    rw [heq]
    simp only [login, load_users_content]
    rw [if_neg (by simp [hu, hp] :
      ¬(username == "" || password == "") = true)]
    rw [usersLookup_append_self (load_users st0) username _ hhas]
    simp

/-- C3 witness: register-then-login at concrete credentials. -/
theorem login_failure_characterization_witness :
    login modelHash
        (register modelHash "t0" (UsersFile.content []) "carol" "hunter2").snd
        "carol" "hunter2"
      = (true, "Login successful!") :=
  (login_failure_characterization modelHash (UsersFile.content [])
    (UsersFile.content []) "t0" "carol" "hunter2").2.2.2 (by decide)

/-- C4 counterexample: a username of three underscores satisfies every
condition of the claim (non-empty, length 3, password length 7, no
character outside letters/digits/underscore, not already present) yet
`register` rejects it with a `ValidationError`, because
`"".isalnum()` is false once the underscores are stripped; and a duplicate
username with a short password yields a `ValidationError`, not the
`DuplicateUserError` the claim promises regardless of password. -/
theorem register_validation_precedence_cex :
    ((register modelHash "t" (UsersFile.content []) "___" "secret1").fst
      = (false, "Username can only contain letters, numbers, and underscores"))
    ∧ ("___".toList.all fun c => c == '_') = true
    ∧ (register modelHash "t" (UsersFile.content []) "___" "secret1").snd
        = UsersFile.content []
    ∧ user_exists
        (register modelHash "t" (UsersFile.content []) "bob" "secret1").snd
        "bob" = true
    ∧ ((register modelHash "t2"
          (register modelHash "t" (UsersFile.content []) "bob" "secret1").snd
          "bob" "short").fst
        = (false, "Password must be at least 6 characters long")) := by
  decide

/-- C4 (amended): `register` fails with a `ValidationError` exactly when
username or password is empty, username length < 3, password length < 6,
or the username with underscores removed is not a non-empty alphanumeric
string (so all-underscore usernames are also rejected); the validation
checks run before the duplicate check, so `DuplicateUserError` is returned
exactly when validation passes and the username already exists; otherwise
a new record holding the password's digest is appended and the call
succeeds; failures leave the store unchanged. -/
theorem register_outcome_characterization
    (hash : String → String) (now : String) (st : UsersFile)
    (username password : String) :
    (((register hash now st username password).fst.fst = false
        ∧ (register hash now st username password).fst.snd ∈ validationMessages)
      ↔ (username = "" ∨ password = "" ∨ username.length < 3
          ∨ password.length < 6
          ∨ pyIsalnum (removeUnderscores username) = false))
    ∧ ((register hash now st username password).fst
          = (false, "Username already exists")
      ↔ (¬(username = "" ∨ password = "" ∨ username.length < 3
            ∨ password.length < 6
            ∨ pyIsalnum (removeUnderscores username) = false)
          ∧ usersHas (load_users st) username = true))
    ∧ ((register hash now st username password).fst.fst = true
      ↔ (¬(username = "" ∨ password = "" ∨ username.length < 3
            ∨ password.length < 6
            ∨ pyIsalnum (removeUnderscores username) = false)
          ∧ usersHas (load_users st) username = false))
    ∧ ((register hash now st username password).fst.fst = true →
        (register hash now st username password).snd
          = .content (load_users st ++
              [(username, { password := hash password, created_at := now })]))
    ∧ ((register hash now st username password).fst.fst = false →
        (register hash now st username password).snd = st) := by
  simp only [register]
  by_cases c1 : (username == "" || password == "") = true
  · rw [if_pos c1]
    simp only [Bool.or_eq_true, beq_iff_eq] at c1
    refine ⟨iff_of_true ⟨rfl, by simp [validationMessages]⟩ (by tauto),
      iff_of_false (by simp) (by tauto),
      iff_of_false (by simp) (by tauto),
      fun h => absurd h (by simp),
      fun _ => rfl⟩
  · rw [if_neg c1]
    simp only [Bool.or_eq_true, beq_iff_eq, not_or] at c1
    by_cases c2 : username.length < 3
    · rw [if_pos c2]
      refine ⟨iff_of_true ⟨rfl, by simp [validationMessages]⟩ (by tauto),
        iff_of_false (by simp) (by tauto),
        iff_of_false (by simp) (by tauto),
        fun h => absurd h (by simp),
        fun _ => rfl⟩
    · rw [if_neg c2]
      by_cases c3 : password.length < 6
      · rw [if_pos c3]
        refine ⟨iff_of_true ⟨rfl, by simp [validationMessages]⟩ (by tauto),
          iff_of_false (by simp) (by tauto),
          iff_of_false (by simp) (by tauto),
          fun h => absurd h (by simp),
          fun _ => rfl⟩
      · rw [if_neg c3]
        by_cases c4 : (!pyIsalnum (removeUnderscores username)) = true
        · rw [if_pos c4]
          have c4f : pyIsalnum (removeUnderscores username) = false := by
            revert c4
            cases pyIsalnum (removeUnderscores username) <;> simp
          refine ⟨iff_of_true ⟨rfl, by simp [validationMessages]⟩ (by tauto),
            iff_of_false (by simp) (by tauto),
            iff_of_false (by simp) (by tauto),
            fun h => absurd h (by simp),
            fun _ => rfl⟩
        · rw [if_neg c4]
          have c4t : pyIsalnum (removeUnderscores username) = true := by
            revert c4
            cases pyIsalnum (removeUnderscores username) <;> simp
          have c4n : ¬ pyIsalnum (removeUnderscores username) = false := by
            simp [c4t]
          by_cases c5 : usersHas (load_users st) username = true
          · rw [if_pos c5]
            refine ⟨iff_of_false (by simp [validationMessages]) (by tauto),
              iff_of_true rfl ⟨by tauto, c5⟩,
              iff_of_false (by simp) (fun h => by rw [c5] at h; exact absurd h.2 (by decide)),
              fun h => absurd h (by simp),
              fun _ => rfl⟩
          · rw [if_neg c5]
            have c5f : usersHas (load_users st) username = false := by
              revert c5
              cases usersHas (load_users st) username <;> simp
            refine ⟨iff_of_false (by simp [validationMessages]) (by tauto),
              iff_of_false (by simp) (fun h => by rw [c5f] at h; exact absurd h.2 (by decide)),
              iff_of_true rfl ⟨by tauto, c5f⟩,
              fun _ => rfl,
              fun h => absurd h (by simp)⟩

/-- C4 witness: the amended characterization at concrete inputs — a valid
fresh registration succeeds and stores the digest. -/
theorem register_outcome_characterization_witness :
    (register modelHash "t" (UsersFile.content []) "bob_1" "secret1").fst.fst = true
    ∧ (register modelHash "t" (UsersFile.content []) "bob_1" "secret1").snd
        = UsersFile.content
            [("bob_1", { password := modelHash "secret1", created_at := "t" })] :=
  have h := register_outcome_characterization modelHash "t"
    (UsersFile.content []) "bob_1" "secret1"
  have hs : (register modelHash "t" (UsersFile.content []) "bob_1" "secret1").fst.fst = true :=
    (h.2.2.1).mpr ⟨by decide, by decide⟩
  ⟨hs, h.2.2.2.1 hs⟩

set_option maxHeartbeats 2000000 in
/-- C5: on an existing task (decomposed at its first occurrence), update
reports success and applies exactly the recognized supplied fields — title
only when non-empty after trimming, priority only when it is Low, Medium
or High (so "Urgent" leaves it unchanged while the call still succeeds),
description and due_date whenever supplied including the empty string —
leaving unsupplied fields, the remaining record fields and every other
task untouched. -/
theorem update_task_field_application
    (st : TaskFile) (task_id : Nat) (kwargs : List (String × String))
    (pre post : List Task) (t : Task)
    (hdec : load_tasks st = pre ++ t :: post)
    (hpre : (pre.all fun x => x.id != task_id) = true)
    (ht : t.id = task_id) :
    update_task st task_id kwargs
      = ((true, "Task " ++ toString task_id ++ " updated successfully!"),
          .content (pre ++ applyUpdate kwargs t :: post))
    ∧ (kwLookup kwargs "title" = none → (applyUpdate kwargs t).title = t.title)
    ∧ (∀ v, kwLookup kwargs "title" = some v →
        (applyUpdate kwargs t).title
          = if pyStrip v = "" then t.title else pyStrip v)
    ∧ (kwLookup kwargs "description" = none →
        (applyUpdate kwargs t).description = t.description)
    ∧ (∀ v, kwLookup kwargs "description" = some v →
        (applyUpdate kwargs t).description = pyStrip v)
    ∧ (kwLookup kwargs "priority" = none →
        (applyUpdate kwargs t).priority = t.priority)
    ∧ (∀ v, kwLookup kwargs "priority" = some v →
        (applyUpdate kwargs t).priority
          = if v = "Low" ∨ v = "Medium" ∨ v = "High" then v else t.priority)
    ∧ (kwLookup kwargs "due_date" = none →
        (applyUpdate kwargs t).due_date = t.due_date)
    ∧ (∀ v, kwLookup kwargs "due_date" = some v →
        (applyUpdate kwargs t).due_date = pyStrip v)
    ∧ (applyUpdate kwargs t).id = t.id
    ∧ (applyUpdate kwargs t).status = t.status
    ∧ (applyUpdate kwargs t).created_at = t.created_at
    ∧ (applyUpdate kwargs t).completed_at = t.completed_at := by
  refine ⟨?_, ?_, ?_, ?_, ?_, ?_, ?_, ?_, ?_, ?_, ?_, ?_, ?_⟩
  · simp only [update_task, hdec,
      updateGo_first kwargs task_id pre post t hpre ht]
  all_goals
    simp only [applyUpdate]
    cases hT : kwLookup kwargs "title" <;>
      cases hD : kwLookup kwargs "description" <;>
        cases hP : kwLookup kwargs "priority" <;>
          cases hDD : kwLookup kwargs "due_date" <;>
            simp only [] <;>
              first
                | (intro v hv
                   injection hv with hv
                   subst hv
                   first
                     | rfl
                     | (split_ifs <;> simp_all [bne]))
                | (intro v hv; cases hv)
                | (intro hx; simp at hx)
                | (intro hx; split_ifs <;> rfl)
                | (split_ifs <;> rfl)
                | (exact fun h => h)

/-- C5 witness: supplying the invalid priority "Urgent" together with a
valid description on the stored task 1 — the call succeeds and the
priority is left unchanged. -/
theorem update_task_field_application_witness :
    (update_task c2St 1 [("priority", "Urgent"), ("description", "new text")]).fst
        = (true, "Task " ++ toString 1 ++ " updated successfully!")
    ∧ (applyUpdate [("priority", "Urgent"), ("description", "new text")] c2Task).priority
        = c2Task.priority := by
  have h := update_task_field_application c2St 1
    [("priority", "Urgent"), ("description", "new text")] [] [] c2Task
    rfl rfl rfl
  refine ⟨?_, ?_⟩
  · have h1 := h.1
    rw [h1]
  · have h7 := h.2.2.2.2.2.2.1 "Urgent" (by rfl)
    rw [h7, if_neg (by decide)]

/-- C6: add fails exactly when the title is empty after trimming, leaving
the store unchanged; on success the new record is appended with status
Pending, null completed_at, and the priority normalized to Medium whenever
the supplied value is not Low, Medium or High. -/
theorem add_task_validation_and_normalization
    (now : String) (st : TaskFile) (title description priority due_date : String) :
    ((add_task now st title description priority due_date).fst.fst = false
      ↔ pyStrip title = "")
    ∧ (pyStrip title = "" →
        add_task now st title description priority due_date
          = ((false, "Task title cannot be empty", none), st))
    ∧ (pyStrip title ≠ "" →
        ∃ tk : Task,
          (add_task now st title description priority due_date).snd
            = .content (load_tasks st ++ [tk])
          ∧ (add_task now st title description priority due_date).fst
              = (true, "Task \x27" ++ title ++ "\x27 added successfully!", some tk.id)
          ∧ tk.status = "Pending"
          ∧ tk.completed_at = none
          ∧ ((priority = "Low" ∨ priority = "Medium" ∨ priority = "High") →
              tk.priority = priority)
          ∧ (¬(priority = "Low" ∨ priority = "Medium" ∨ priority = "High") →
              tk.priority = "Medium")) := by
  by_cases hc : pyStrip title = ""
  · have hcond : (title == "" || pyStrip title == "") = true :=
      (add_cond_iff title).mpr hc
    refine ⟨?_, fun _ => ?_, fun h => absurd hc h⟩
    · rw [add_task, if_pos hcond]
      simp [hc]
    · rw [add_task, if_pos hcond]
  · have hcond : ¬(title == "" || pyStrip title == "") = true :=
      fun h => hc ((add_cond_iff title).mp h)
    rw [add_task_success now st title description priority due_date hcond]
    refine ⟨by simp [hc], fun h => absurd h hc, fun _ => ⟨_, rfl, rfl, rfl, rfl, ?_, ?_⟩⟩
    · intro hp
      rcases hp with h | h | h <;> simp [h]
    · intro hp
      push_neg at hp
      simp [hp.1, hp.2.1, hp.2.2]

/-- C6 witness: the failure branch of the characterization at a
whitespace-only title on a concrete store. -/
theorem add_task_validation_and_normalization_witness :
    add_task "2025" (TaskFile.content []) "   " "" "" ""
      = ((false, "Task title cannot be empty", none), TaskFile.content []) :=
  (add_task_validation_and_normalization "2025" (TaskFile.content [])
    "   " "" "" "").2.1 (by decide)

/-- C7: marking an already-Completed task complete again (first occurrence
of the id) returns the `AlreadyInStateError` failure and returns before
saving, so the whole file state — the task's completed_at, every other
field and every other task — is exactly as before. -/
theorem mark_complete_already_completed_noop
    (now : String) (st : TaskFile) (task_id : Nat)
    (pre post : List Task) (t : Task)
    (hdec : load_tasks st = pre ++ t :: post)
    (hpre : (pre.all fun x => x.id != task_id) = true)
    (ht : t.id = task_id)
    (hstatus : t.status = "Completed") :
    mark_complete now st task_id
      = ((false, "Task " ++ toString task_id ++ " is already completed"), st) := by
  simp only [mark_complete, hdec,
    markCompleteGo_first_completed now task_id pre post t hpre ht hstatus]

/-- C7 witness: the no-op at a concrete completed task. -/
theorem mark_complete_already_completed_noop_witness :
    mark_complete "2025-03-01" c7St 1
      = ((false, "Task " ++ toString 1 ++ " is already completed"), c7St) :=
  mark_complete_already_completed_noop "2025-03-01" c7St 1 [] [] c7Task
    rfl rfl rfl rfl

/-- C8: on a Pending task, mark_complete then mark_pending both succeed and
restore the store to the original collection with the task back at status
Pending and completed_at null — id, title, description, priority, due_date
and created_at of the task, and every other task, exactly as before. -/
theorem mark_complete_then_pending_roundtrip
    (now : String) (st : TaskFile) (task_id : Nat)
    (pre post : List Task) (t : Task)
    (hdec : load_tasks st = pre ++ t :: post)
    (hpre : (pre.all fun x => x.id != task_id) = true)
    (ht : t.id = task_id)
    (hstatus : t.status = "Pending") :
    (mark_complete now st task_id).fst.fst = true
    ∧ (mark_pending (mark_complete now st task_id).snd task_id).fst.fst = true
    ∧ (mark_pending (mark_complete now st task_id).snd task_id).snd
        = .content
            (pre ++ { t with status := "Pending", completed_at := none } :: post) := by
  have hne : t.status ≠ "Completed" := by
    rw [hstatus]; decide
  have h1 := markCompleteGo_first_active now task_id pre post t hpre ht hne
  have hcomp : mark_complete now st task_id
      = ((true, "Task " ++ toString task_id ++ " marked as completed!"),
          .content
            (pre ++ { t with status := "Completed", completed_at := some now } :: post)) := by
    simp only [mark_complete, hdec, h1]
  have ht2 : ({ t with status := "Completed", completed_at := some now } : Task).id
      = task_id := ht
  have hne2 : ({ t with status := "Completed", completed_at := some now } : Task).status
      ≠ "Pending" := by
    intro h
    exact absurd (show "Completed" = "Pending" from h) (by decide)
  have h2 := markPendingGo_first_completed task_id pre post
    { t with status := "Completed", completed_at := some now } hpre ht2 hne2
  have hpend : mark_pending (mark_complete now st task_id).snd task_id
      = ((true, "Task " ++ toString task_id ++ " marked as pending!"),
          .content
            (pre ++ { t with status := "Pending", completed_at := none } :: post)) := by
    rw [hcomp]
    simp only [mark_pending, load_tasks_content, h2]
  exact ⟨by rw [hcomp], by rw [hpend], by rw [hpend]⟩

/-- C8 witness: the roundtrip on the concrete pending task 1. -/
theorem mark_complete_then_pending_roundtrip_witness :
    (mark_complete "2025-05-01" c2St 1).fst.fst = true
    ∧ (mark_pending (mark_complete "2025-05-01" c2St 1).snd 1).fst.fst = true
    ∧ (mark_pending (mark_complete "2025-05-01" c2St 1).snd 1).snd
        = .content
            ([] ++ { c2Task with status := "Pending", completed_at := none } :: []) :=
  mark_complete_then_pending_roundtrip "2025-05-01" c2St 1 [] [] c2Task
    rfl rfl rfl rfl

/-- C9: search returns exactly the tasks whose lowercased title or
description contains the lowercased keyword as a substring, in insertion
order; in particular "eport" over the Report Draft / Email Team pair
returns exactly the first. -/
theorem search_tasks_filter_spec :
    (∀ (st : TaskFile) (keyword : String),
      search_tasks st keyword = (load_tasks st).filter (matchesKeyword keyword))
    ∧ search_tasks (TaskFile.content [reportTask, emailTask]) "eport"
        = [reportTask] := by
  constructor
  · intro st keyword
    exact searchGo_eq_filter (pyLower keyword) (load_tasks st)
  · decide

/-- C10: a read-failure state of the backing storage behaves observably
like the initial empty state for every operation of the task store and of
the credential store: results agree, and the collection read back from the
resulting state agrees. -/
theorem unreadable_storage_behaves_empty
    (now title description priority due_date keyword status username password : String)
    (task_id : Nat) (kwargs : List (String × String)) (hash : String → String) :
    load_tasks TaskFile.unreadable = load_tasks (TaskFile.content [])
    ∧ (add_task now TaskFile.unreadable title description priority due_date).fst
        = (add_task now (TaskFile.content []) title description priority due_date).fst
    ∧ load_tasks
          (add_task now TaskFile.unreadable title description priority due_date).snd
        = load_tasks
            (add_task now (TaskFile.content []) title description priority due_date).snd
    ∧ view_all_tasks TaskFile.unreadable = view_all_tasks (TaskFile.content [])
    ∧ view_task_by_id TaskFile.unreadable task_id
        = view_task_by_id (TaskFile.content []) task_id
    ∧ view_tasks_by_status TaskFile.unreadable status
        = view_tasks_by_status (TaskFile.content []) status
    ∧ view_tasks_by_priority TaskFile.unreadable priority
        = view_tasks_by_priority (TaskFile.content []) priority
    ∧ (update_task TaskFile.unreadable task_id kwargs).fst
        = (update_task (TaskFile.content []) task_id kwargs).fst
    ∧ load_tasks (update_task TaskFile.unreadable task_id kwargs).snd
        = load_tasks (update_task (TaskFile.content []) task_id kwargs).snd
    ∧ (mark_complete now TaskFile.unreadable task_id).fst
        = (mark_complete now (TaskFile.content []) task_id).fst
    ∧ load_tasks (mark_complete now TaskFile.unreadable task_id).snd
        = load_tasks (mark_complete now (TaskFile.content []) task_id).snd
    ∧ (mark_pending TaskFile.unreadable task_id).fst
        = (mark_pending (TaskFile.content []) task_id).fst
    ∧ load_tasks (mark_pending TaskFile.unreadable task_id).snd
        = load_tasks (mark_pending (TaskFile.content []) task_id).snd
    ∧ (delete_task TaskFile.unreadable task_id).fst
        = (delete_task (TaskFile.content []) task_id).fst
    ∧ load_tasks (delete_task TaskFile.unreadable task_id).snd
        = load_tasks (delete_task (TaskFile.content []) task_id).snd
    ∧ get_task_count TaskFile.unreadable = get_task_count (TaskFile.content [])
    ∧ search_tasks TaskFile.unreadable keyword
        = search_tasks (TaskFile.content []) keyword
    ∧ load_users UsersFile.unreadable = load_users (UsersFile.content [])
    ∧ (register hash now UsersFile.unreadable username password).fst
        = (register hash now (UsersFile.content []) username password).fst
    ∧ load_users (register hash now UsersFile.unreadable username password).snd
        = load_users (register hash now (UsersFile.content []) username password).snd
    ∧ login hash UsersFile.unreadable username password
        = login hash (UsersFile.content []) username password
    ∧ user_exists UsersFile.unreadable username
        = user_exists (UsersFile.content []) username
    ∧ get_all_usernames UsersFile.unreadable
        = get_all_usernames (UsersFile.content []) := by
  refine ⟨rfl, ?_, ?_, rfl, rfl, rfl, rfl, rfl, rfl, rfl, rfl, rfl, rfl, rfl, rfl,
    rfl, rfl, rfl, ?_, ?_, rfl, rfl, rfl⟩
  · by_cases hc : (title == "" || pyStrip title == "") = true <;>
      simp [add_task, hc, load_tasks]
  · by_cases hc : (title == "" || pyStrip title == "") = true <;>
      simp [add_task, hc, load_tasks]
  · by_cases c1 : (username == "" || password == "") = true <;>
      by_cases c2 : username.length < 3 <;>
        by_cases c3 : password.length < 6 <;>
          by_cases c4 : (!pyIsalnum (removeUnderscores username)) = true <;>
            simp [register, c1, c2, c3, c4, load_users, usersHas]
  · by_cases c1 : (username == "" || password == "") = true <;>
      by_cases c2 : username.length < 3 <;>
        by_cases c3 : password.length < 6 <;>
          by_cases c4 : (!pyIsalnum (removeUnderscores username)) = true <;>
            simp [register, c1, c2, c3, c4, load_users, usersHas]

end TaskApp
